import Mathlib

/-!
Verification development for the bending-light ray-optics simulation.

The repository ships only view-layer JavaScript under src/; the physics core
(the Snell/Fresnel solver, the ray propagation engine, the wave sampler model)
is referenced by that view code but its implementation is not included.  Those
parts are modelled here from the specification, with doc comments marking each
modelled definition.  Definitions taken from files under src/ cite the file.

The file is organised as definitions first, then lemmas and theorems.
-/

namespace BendingLight

/-! ## Snell / Fresnel interface solver (spec section 4.3) -/

/-- Modelled from the spec: a child ray produced at an interface by the
Snell/Fresnel solver, reduced to the two quantities the claims speak about:
its power (fraction of source intensity) and its angle with the normal. -/
structure ChildRay where
  power : ℝ
  angle : ℝ

/-- Modelled from the spec: the output of the solver at one interface,
zero or one refracted ray plus the reflected ray. -/
structure InterfaceResult where
  refracted : Option ChildRay
  reflected : ChildRay

/-- Modelled from the spec: the refraction angle computed via Snell's law,
sin θ2 = (n1/n2) sin θ1. -/
noncomputable def refractedAngle (n1 n2 θ1 : ℝ) : ℝ :=
  Real.arcsin (n1 / n2 * Real.sin θ1)

/-- Modelled from the spec: unpolarized Fresnel reflectance, the average of the
s-polarization and p-polarization reflectance computed from θ1, θ2, n1, n2. -/
noncomputable def reflectance (n1 n2 θ1 θ2 : ℝ) : ℝ :=
  (((n1 * Real.cos θ1 - n2 * Real.cos θ2) / (n1 * Real.cos θ1 + n2 * Real.cos θ2)) ^ 2 +
     ((n1 * Real.cos θ2 - n2 * Real.cos θ1) / (n1 * Real.cos θ2 + n2 * Real.cos θ1)) ^ 2) / 2

/-- Modelled from the spec: the total internal reflection test of the solver;
the interface is in TIR when n1 > n2 and sin θ1 > n2/n1. -/
def totalInternalReflection (n1 n2 θ1 : ℝ) : Prop :=
  n2 < n1 ∧ n2 / n1 < Real.sin θ1

/-- Modelled from the spec: the Snell/Fresnel solver at one interface.  In TIR
it produces only a reflected ray carrying the full incident power p; otherwise
it produces a refracted ray at angle θ2 with power p·(1−R) and a reflected ray
at angle θ1 with power p·R, where R is the unpolarized Fresnel reflectance. -/
noncomputable def solveInterface (n1 n2 θ1 p : ℝ) : InterfaceResult :=
  open Classical in
  if totalInternalReflection n1 n2 θ1 then
    { refracted := none, reflected := { power := p, angle := θ1 } }
  else
    { refracted :=
        some { power := p * (1 - reflectance n1 n2 θ1 (refractedAngle n1 n2 θ1)),
               angle := refractedAngle n1 n2 θ1 },
      reflected :=
        { power := p * reflectance n1 n2 θ1 (refractedAngle n1 n2 θ1), angle := θ1 } }

/-! ## Ray propagation engine (spec section 4.4)

Modelled from the spec.  Geometry is over ℚ so that everything is executable;
the intersection module (spec section 4.2) and the two child-ray constructors
of the solver are contract-level parameters of the engine environment, since
the spec fixes only their interfaces: an intersection finder returning the
nearest intersection or none, and a solver producing at most one reflected and
at most one refracted child per interface. -/

/-- Modelled from the spec: a light ray — origin, direction, wavelength, power
and the refractive index of the medium it currently occupies. -/
structure LightRay where
  origin : ℚ × ℚ
  dir : ℚ × ℚ
  wavelength : ℚ
  power : ℚ
  mediumIndex : ℚ
deriving DecidableEq

/-- Modelled from the spec: an intersection — a point, the unit surface normal
oriented against the incoming ray, and the indices on either side. -/
structure Isect where
  point : ℚ × ℚ
  normal : ℚ × ℚ
  n1 : ℚ
  n2 : ℚ
deriving DecidableEq

/-- Modelled from the spec: an output ray segment, a finalized ray bounded by a
start and an end point. -/
structure RaySegment where
  startPt : ℚ × ℚ
  endPt : ℚ × ℚ
  wavelength : ℚ
  power : ℚ
deriving DecidableEq

/-- Modelled from the spec: the engine's environment — the intersection finder
of spec section 4.2, the two child-ray constructors of the solver of spec
section 4.3 (at most one reflected and at most one refracted child), the escape
distance for rays leaving the play area, the power threshold below which child
rays are discarded, and the hard maximum recursion depth. -/
structure EngineEnv where
  intersect : LightRay → Option Isect
  reflectedChild : LightRay → Isect → Option LightRay
  refractedChild : LightRay → Isect → Option LightRay
  escapeDistance : ℚ
  powerThreshold : ℚ
  maxDepth : ℕ

/-- Modelled from the spec: the final segment of a ray that exits the bounded
domain, truncated at the large fixed escape distance. -/
def escapeSegment (env : EngineEnv) (r : LightRay) : RaySegment :=
  { startPt := r.origin,
    endPt := (r.origin.1 + env.escapeDistance * r.dir.1,
              r.origin.2 + env.escapeDistance * r.dir.2),
    wavelength := r.wavelength, power := r.power }

/-- Modelled from the spec: the final segment of a ray from its origin to the
intersection point found for it. -/
def hitSegment (r : LightRay) (i : Isect) : RaySegment :=
  { startPt := r.origin, endPt := i.point, wavelength := r.wavelength,
    power := r.power }

/-- Modelled from the spec: the 0–2 child rays produced at an intersection,
after discarding children whose power falls below the fixed threshold. -/
def childRays (env : EngineEnv) (r : LightRay) (i : Isect) : List LightRay :=
  ((env.reflectedChild r i).toList ++ (env.refractedChild r i).toList).filter
    (fun c => decide (env.powerThreshold ≤ c.power))

/-- Modelled from the spec: children are enqueued at depth d+1, and only while
the hard maximum recursion depth is not exceeded. -/
def enqueueChildren (env : EngineEnv) (d : ℕ) (cs : List LightRay) :
    List (LightRay × ℕ) :=
  if d + 1 ≤ env.maxDepth then cs.map (fun c => (c, d + 1)) else []

/-- Modelled from the spec: the engine's work-queue loop.  Pop a ray, find its
nearest intersection; if none, emit an escape segment; otherwise emit the
segment up to the intersection and enqueue the surviving children.  The loop
carries explicit fuel and reports `none` when the fuel runs out before the
queue empties; the termination theorem shows a fixed fuel derived from the
depth bound always suffices. -/
def propagateLoop (env : EngineEnv) :
    ℕ → List (LightRay × ℕ) → Option (List RaySegment)
  | _, [] => some []
  | 0, _ :: _ => none
  | fuel + 1, (r, d) :: rest =>
    match env.intersect r with
    | none => (propagateLoop env fuel rest).map
        (fun segs => escapeSegment env r :: segs)
    | some i =>
        (propagateLoop env fuel
            (rest ++ enqueueChildren env d (childRays env r i))).map
          (fun segs => hitSegment r i :: segs)

/-- Weight of a queue entry of depth d in the termination measure. -/
def entryWeight (maxD d : ℕ) : ℕ := 3 ^ (maxD + 1 - d)

/-- Termination measure of a work queue: the sum of its entry weights. -/
def queueMeasure (maxD : ℕ) (q : List (LightRay × ℕ)) : ℕ :=
  (q.map (fun e => entryWeight maxD e.2)).sum

/-- The fixed fuel budget derived from the depth bound. -/
def initialFuel (env : EngineEnv) : ℕ := 3 ^ (env.maxDepth + 1)

/-- Modelled from the spec: one full run of the propagation engine, seeded with
the single ray emitted from the laser at depth 0. -/
def propagateAll (env : EngineEnv) (seed : LightRay) : Option (List RaySegment) :=
  propagateLoop env (initialFuel env) [(seed, 0)]

/-- Modelled from the spec: a recomputation trigger rebuilds the segment list
from scratch; the previously published list is discarded wholesale, never
patched. -/
def updateModel (env : EngineEnv) (seed : LightRay)
    (oldSegments : List RaySegment) : List RaySegment :=
  (propagateAll env seed).getD []

/-! ## Wave sensor stepping, reset and visibility (claims C5, C6)

The gating of wave sampling on visibility is in src
(src/js/moretools/view/MoreToolsView.js stepInternal, and the equivalent
updateWaveShape of src/unnamed/part_002); the WaveSensor model class itself is
not under src and is modelled from the spec. -/

/-- A wave sample, a (time, amplitude) pair. -/
abbrev WaveSample := ℚ × ℚ

/-- Modelled from the spec: the wave sensor model state — the visible flag and
the recorded series of its two probes, plus the sensor clock. -/
structure WaveSensor where
  visible : Bool
  series1 : List WaveSample
  series2 : List WaveSample
  time : ℚ
deriving DecidableEq

/-- Modelled from the spec: WaveSensor.step (the model class is not under src;
it is invoked from MoreToolsView.stepInternal).  One step advances the sensor
clock and appends one new sample to each probe series. -/
def waveSensorStep (samp1 samp2 : WaveSample) (dt : ℚ) (s : WaveSensor) :
    WaveSensor :=
  { s with series1 := s.series1 ++ [samp1], series2 := s.series2 ++ [samp2],
           time := s.time + dt }

/-- Modelled from the spec: WaveSensor.reset (the model class is not under
src) restores the initial state of the recorded series — both empty — and of
the sensor clock; the visible flag is handled separately by the callers in
src. -/
def waveSensorReset (s : WaveSensor) : WaveSensor :=
  { s with series1 := [], series2 := [], time := 0 }

/-- From src/js/moretools/view/MoreToolsView.js, stepInternal: the wave sensor
is stepped only when its visible flag is set. -/
def moreToolsStepInternal (samp1 samp2 : WaveSample) (dt : ℚ) (s : WaveSensor) :
    WaveSensor :=
  if s.visible then waveSensorStep samp1 samp2 dt s else s

/-- From src/unnamed/part_003 (WaveSensorNode), the drag-end handlers that drop
the sensor back into the toolbox: they call waveSensorNode.reset() — which
resets the wave sensor model — and then set the visible flag to false. -/
def dropIntoToolbox (s : WaveSensor) : WaveSensor :=
  { waveSensorReset s with visible := false }

/-- Modelled from the spec: the per-probe sliding window over recorded
samples.  Samples are kept most-recent-first: pushing a new sample prepends it
and truncates to the fixed capacity N, so eviction removes the samples at the
tail — the oldest ones, in arrival (FIFO) order. -/
def pushSample (N : ℕ) (s : WaveSample) (buf : List WaveSample) :
    List WaveSample :=
  List.take N (s :: buf)

/-- Modelled from the spec: recording a whole stream of samples into the
sliding window, one simulation step at a time. -/
def recordSamples (N : ℕ) (stream : List WaveSample) (init : List WaveSample) :
    List WaveSample :=
  stream.foldl (fun buf s => pushSample N s buf) init

/-! ## White-light dirty flag (claim C7) -/

/-- From src/js/prisms/view/PrismBreakView.js: the laser color mode, compared
against the string constant white in stepInternal. -/
inductive ColorMode where
  | white
  | singleColor
deriving DecidableEq

/-- From src/js/prisms/view/PrismBreakView.js: the state read and written by
stepInternal — the laser color mode, the model's dirty flag, and a counter of
how many times the white-light display has been recomputed (modelling the
effect of whiteLightNode.step(), whose implementation is not under src). -/
structure PrismBreakState where
  colorMode : ColorMode
  dirty : Bool
  whiteLightSteps : ℕ
deriving DecidableEq

/-- From src/js/prisms/view/PrismBreakView.js, stepInternal: when the color
mode is white and the model is dirty, recompute the white-light display and
clear the dirty flag; otherwise do nothing. -/
def prismBreakStepInternal (s : PrismBreakState) : PrismBreakState :=
  if s.colorMode = ColorMode.white ∧ s.dirty = true then
    { s with whiteLightSteps := s.whiteLightSteps + 1, dirty := false }
  else s

/-! ## Wave sensor node rescaling (claim C8) -/

/-- From src/unnamed/part_003 (WaveSensorNode): the positions manipulated by
setWaveSensorNodeScale — the body position and the two probe positions of the
wave sensor model, plus the node's current scale (the value that
bodyNode.getScaleVector().x reports after setScaleMagnitude). -/
structure WaveSensorLayout where
  bodyPosition : ℚ × ℚ
  probe1Position : ℚ × ℚ
  probe2Position : ℚ × ℚ
  nodeScale : ℚ
deriving DecidableEq

/-- Modelled from the spec: WaveSensor.translateAllXY (the model class is not
under src) translates the body and both probes by the same delta. -/
def translateAllXY (dx dy : ℚ) (s : WaveSensorLayout) : WaveSensorLayout :=
  { s with
    bodyPosition := (s.bodyPosition.1 + dx, s.bodyPosition.2 + dy),
    probe1Position := (s.probe1Position.1 + dx, s.probe1Position.2 + dy),
    probe2Position := (s.probe2Position.1 + dx, s.probe2Position.2 + dy) }

/-- From src/unnamed/part_003, WaveSensorNode.setWaveSensorNodeScale: rescale
the node, reposition the body and probe2 relative to probe1 by the ratio of
the new scale to the previous scale, then translate everything so that probe1
lands on the given end position. -/
def setWaveSensorNodeScale (endPositionX endPositionY scale : ℚ)
    (s : WaveSensorLayout) : WaveSensorLayout :=
  let prevScale := s.nodeScale
  let ratio := scale / prevScale
  let delta1X := s.probe1Position.1 * (1 - ratio) + s.bodyPosition.1 * ratio
  let delta1Y := s.probe1Position.2 * (1 - ratio) + s.bodyPosition.2 * ratio
  let delta2X := s.probe1Position.1 * (1 - ratio) + s.probe2Position.1 * ratio
  let delta2Y := s.probe1Position.2 * (1 - ratio) + s.probe2Position.2 * ratio
  let s1 : WaveSensorLayout :=
    { s with bodyPosition := (delta1X, delta1Y),
             probe2Position := (delta2X, delta2Y),
             nodeScale := scale }
  translateAllXY (endPositionX - s1.probe1Position.1)
    (endPositionY - s1.probe1Position.2) s1

/-! ## The two ExpandableProtractorNode.setExpanded versions (claim C9) -/

/-- From src/js/more-tools/view/ExpandableProtractorNode.js, setExpanded: the
protractor scale passed to setProtractorScale — 0.8 when expanded, 0.4
otherwise. -/
def moreToolsSetExpandedScale (expanded : Bool) : ℚ :=
  if expanded then 0.8 else 0.4

/-- From src/js/moretools/view/ExpandableProtractorNode.js, setExpanded: the
protractor scale passed to setProtractorScale — 0.8 when expanded, 0.4
otherwise. -/
def moretoolsDirSetExpandedScale (expanded : Bool) : ℚ :=
  if expanded then 0.8 else 0.4

/-! ## Laser rotation drag handler (claim C10) -/

/-- From src/unnamed/part_001 (LaserNode), the context of the rotation drag
handler: the clampDragAngle function supplied by the screen view, the
MAX_ANGLE_IN_WAVE_MODE constant, the laser's wave-mode and top-left-quadrant
flags, the laser emission point as a function of the laser angle (setAngle
rotates the emission point about the fixed pivot; the Laser model class is not
under src and is modelled from the spec at this interface), and the membership
test of the eroded drag bounds converted to model coordinates. -/
structure RotationDragEnv where
  clampDragAngle : ℚ → ℚ
  maxAngleInWaveMode : ℚ
  waveMode : Bool
  topLeftQuadrant : Bool
  emissionPointAt : ℚ → ℚ × ℚ
  inDragBounds : ℚ × ℚ → Bool

/-- From src/unnamed/part_001, the rotation drag handler: the angle actually
applied by the first setAngle call — the clamped pointer angle, further capped
at MAX_ANGLE_IN_WAVE_MODE when in wave mode past that maximum with the
top-left-quadrant flag set. -/
def appliedRotationAngle (env : RotationDragEnv) (pointerAngle : ℚ) : ℚ :=
  if env.waveMode &&
      decide (env.maxAngleInWaveMode < env.clampDragAngle pointerAngle) &&
      env.topLeftQuadrant then
    env.maxAngleInWaveMode
  else env.clampDragAngle pointerAngle

/-- From src/unnamed/part_001, the rotation drag handler: the laser angle after
the whole drag update — the applied angle if the rotated emission point stays
inside the drag bounds, otherwise the angle from before the drag update is
restored. -/
def rotationDrag (env : RotationDragEnv) (angleBefore pointerAngle : ℚ) : ℚ :=
  if env.inDragBounds (env.emissionPointAt (appliedRotationAngle env pointerAngle)) = true then
    appliedRotationAngle env pointerAngle
  else angleBefore

/-! ## Concrete inputs used by the witness theorems -/

/-- A concrete wave sensor state with the sensor visible and samples already
recorded. -/
def witnessWaveSensor : WaveSensor :=
  { visible := true, series1 := [(0, 1)], series2 := [(0, 2)], time := 1 }

/-- A concrete prism-screen state in white-light mode with the dirty flag
set. -/
def witnessPrismBreakState : PrismBreakState :=
  { colorMode := ColorMode.white, dirty := true, whiteLightSteps := 0 }

/-- A concrete wave sensor layout at node scale 1. -/
def witnessLayout : WaveSensorLayout :=
  { bodyPosition := (1, 2), probe1Position := (3, 4), probe2Position := (5, 6),
    nodeScale := 1 }

/-- A concrete rotation-drag context in wave mode with the top-left-quadrant
flag set, whose clamp is the identity and whose drag bounds accept abscissas up
to 2. -/
def witnessRotationEnv : RotationDragEnv :=
  { clampDragAngle := fun a => a,
    maxAngleInWaveMode := 1,
    waveMode := true,
    topLeftQuadrant := true,
    emissionPointAt := fun a => (a, 0),
    inDragBounds := fun p => decide (p.1 ≤ 2) }

end BendingLight

namespace BendingLight

/-! ## Lemmas for the engine termination argument -/

lemma optionToList_length_le {α : Type} (o : Option α) : o.toList.length ≤ 1 := by
  cases o <;> simp

lemma childRays_length_le (env : EngineEnv) (r : LightRay) (i : Isect) :
    (childRays env r i).length ≤ 2 := by
  unfold childRays
  calc (((env.reflectedChild r i).toList ++ (env.refractedChild r i).toList).filter
          (fun c => decide (env.powerThreshold ≤ c.power))).length
      ≤ ((env.reflectedChild r i).toList ++ (env.refractedChild r i).toList).length :=
        List.length_filter_le _ _
    _ = (env.reflectedChild r i).toList.length + (env.refractedChild r i).toList.length :=
        List.length_append _ _
    _ ≤ 1 + 1 := Nat.add_le_add (optionToList_length_le _) (optionToList_length_le _)
    _ = 2 := rfl

lemma queueMeasure_nil (maxD : ℕ) : queueMeasure maxD [] = 0 := rfl

lemma queueMeasure_cons (maxD : ℕ) (r : LightRay) (d : ℕ) (q : List (LightRay × ℕ)) :
    queueMeasure maxD ((r, d) :: q) = entryWeight maxD d + queueMeasure maxD q := by
  simp [queueMeasure]

lemma queueMeasure_append (maxD : ℕ) (a b : List (LightRay × ℕ)) :
    queueMeasure maxD (a ++ b) = queueMeasure maxD a + queueMeasure maxD b := by
  simp [queueMeasure]

lemma queueMeasure_map_const_depth (maxD k : ℕ) (cs : List LightRay) :
    queueMeasure maxD (cs.map (fun c => (c, k))) = cs.length * entryWeight maxD k := by
  induction cs with
  | nil => simp [queueMeasure]
  | cons c rest ih =>
      simp only [List.map_cons, queueMeasure_cons, ih, List.length_cons]
      ring

lemma one_le_entryWeight (maxD d : ℕ) : 1 ≤ entryWeight maxD d :=
  Nat.one_le_pow _ _ (by norm_num)

lemma enqueueChildren_measure (env : EngineEnv) (d : ℕ) (cs : List LightRay)
    (hcs : cs.length ≤ 2) :
    queueMeasure env.maxDepth (enqueueChildren env d cs) + 1 ≤
      entryWeight env.maxDepth d := by
  unfold enqueueChildren
  by_cases h : d + 1 ≤ env.maxDepth
  · rw [if_pos h, queueMeasure_map_const_depth]
    have e1 : entryWeight env.maxDepth d = 3 * entryWeight env.maxDepth (d + 1) := by
      unfold entryWeight
      have e2 : env.maxDepth + 1 - d = (env.maxDepth + 1 - (d + 1)) + 1 := by omega
      rw [e2, pow_succ, Nat.mul_comm]
    rw [e1]
    have h1 : 1 ≤ entryWeight env.maxDepth (d + 1) := one_le_entryWeight _ _
    calc cs.length * entryWeight env.maxDepth (d + 1) + 1
        ≤ 2 * entryWeight env.maxDepth (d + 1) + 1 :=
          Nat.add_le_add_right (Nat.mul_le_mul_right _ hcs) 1
      _ ≤ 3 * entryWeight env.maxDepth (d + 1) := by omega
  · rw [if_neg h, queueMeasure_nil]
    exact one_le_entryWeight _ _

lemma propagateLoop_isSome (env : EngineEnv) :
    ∀ fuel q, queueMeasure env.maxDepth q ≤ fuel →
      (propagateLoop env fuel q).isSome = true := by
  intro fuel
  induction fuel with
  | zero =>
      intro q hq
      cases q with
      | nil => simp [propagateLoop]
      | cons e rest =>
          exfalso
          obtain ⟨r, d⟩ := e
          rw [queueMeasure_cons] at hq
          have := one_le_entryWeight env.maxDepth d
          omega
  | succ f ih =>
      intro q hq
      cases q with
      | nil => simp [propagateLoop]
      | cons e rest =>
          obtain ⟨r, d⟩ := e
          rw [queueMeasure_cons] at hq
          cases hI : env.intersect r with
          | none =>
              have hrest : queueMeasure env.maxDepth rest ≤ f := by
                have := one_le_entryWeight env.maxDepth d
                omega
              obtain ⟨v, hv⟩ := Option.isSome_iff_exists.mp (ih rest hrest)
              simp [propagateLoop, hI, hv]
          | some i =>
              have hm := enqueueChildren_measure env d (childRays env r i)
                (childRays_length_le env r i)
              have hq2 : queueMeasure env.maxDepth
                  (rest ++ enqueueChildren env d (childRays env r i)) ≤ f := by
                rw [queueMeasure_append]
                omega
              obtain ⟨v, hv⟩ := Option.isSome_iff_exists.mp (ih _ hq2)
              simp [propagateLoop, hI, hv]

/-! ## Claim theorems -/

/-- Claim C1: for an interface with indices n1 ≥ 1 and n2 ≥ 1 and incidence
angle θ1 below the critical angle (here: n1·sin θ1 ≤ n2, which holds strictly
below the critical angle and also whenever n1 ≤ n2), the solver produces a
refracted ray whose angle θ2 with the normal satisfies
n1·sin θ1 = n2·sin θ2. -/
theorem snell_law_refracted_angle (n1 n2 θ1 p : ℝ)
    (hn1 : 1 ≤ n1) (hn2 : 1 ≤ n2) (hθ0 : 0 ≤ θ1) (hθhalf : θ1 ≤ Real.pi / 2)
    (hcrit : n1 * Real.sin θ1 ≤ n2) :
    ∃ r, (solveInterface n1 n2 θ1 p).refracted = some r ∧
      n1 * Real.sin θ1 = n2 * Real.sin r.angle := by
  have hn1pos : (0 : ℝ) < n1 := lt_of_lt_of_le one_pos hn1
  have hn2pos : (0 : ℝ) < n2 := lt_of_lt_of_le one_pos hn2
  have hsin0 : 0 ≤ Real.sin θ1 := by
    apply Real.sin_nonneg_of_nonneg_of_le_pi hθ0
    linarith [Real.pi_pos]
  have hTIR : ¬ totalInternalReflection n1 n2 θ1 := by
    rintro ⟨h1, h2⟩
    have : n2 < Real.sin θ1 * n1 := (div_lt_iff₀ hn1pos).mp h2
    nlinarith
  have hx1 : n1 / n2 * Real.sin θ1 ≤ 1 := by
    rw [div_mul_eq_mul_div, div_le_one hn2pos]
    linarith
  have hx0 : 0 ≤ n1 / n2 * Real.sin θ1 := by positivity
  refine ⟨⟨p * (1 - reflectance n1 n2 θ1 (refractedAngle n1 n2 θ1)),
      refractedAngle n1 n2 θ1⟩, ?_, ?_⟩
  · rw [solveInterface, if_neg hTIR]
  · have hs : Real.sin (refractedAngle n1 n2 θ1) = n1 / n2 * Real.sin θ1 := by
      rw [refractedAngle]
      exact Real.sin_arcsin (by linarith) hx1
    show n1 * Real.sin θ1 = n2 * Real.sin (refractedAngle n1 n2 θ1)
    rw [hs]
    field_simp

/-- Witness for C1 at the concrete interface n1 = n2 = 1, θ1 = 0, p = 1. -/
theorem snell_law_refracted_angle_witness :
    ∃ r, (solveInterface 1 1 0 1).refracted = some r ∧
      (1 : ℝ) * Real.sin 0 = 1 * Real.sin r.angle :=
  snell_law_refracted_angle 1 1 0 1 le_rfl le_rfl le_rfl
    (by linarith [Real.pi_pos]) (by simp)

/-- Claim C2: at a non-TIR interface the refracted ray's power plus the
reflected ray's power equals the incident power p exactly (the split is
p·(1−R) and p·R); at a TIR interface no refracted ray is produced and the
reflected ray carries exactly the incident power. -/
theorem power_conservation_at_interface (n1 n2 θ1 p : ℝ) :
    (∀ r, (solveInterface n1 n2 θ1 p).refracted = some r →
        r.power + (solveInterface n1 n2 θ1 p).reflected.power = p) ∧
      (totalInternalReflection n1 n2 θ1 →
        (solveInterface n1 n2 θ1 p).refracted = none ∧
          (solveInterface n1 n2 θ1 p).reflected.power = p) := by
  classical
  by_cases h : totalInternalReflection n1 n2 θ1
  · constructor
    · intro r hr
      rw [solveInterface, if_pos h] at hr
      simp at hr
    · intro _
      rw [solveInterface, if_pos h]
      exact ⟨rfl, rfl⟩
  · constructor
    · intro r hr
      rw [solveInterface, if_neg h] at hr ⊢
      simp only [Option.some.injEq] at hr
      subst hr
      simp only []
      ring
    · intro hTIR
      exact absurd hTIR h

/-- Witness for C2 at the concrete TIR interface n1 = 2, n2 = 1, θ1 = π/2,
p = 1: no refracted ray, reflected power exactly 1. -/
theorem power_conservation_at_interface_witness :
    (solveInterface 2 1 (Real.pi / 2) 1).refracted = none ∧
      (solveInterface 2 1 (Real.pi / 2) 1).reflected.power = 1 :=
  (power_conservation_at_interface 2 1 (Real.pi / 2) 1).2
    ⟨by norm_num, by rw [Real.sin_pi_div_two]; norm_num⟩

/-- Claim C3: the propagation engine is a pure function of its inputs.  A
recomputation discards the previously published segment list, so the output
does not depend on it, and running the engine twice on unchanged inputs yields
identical ordered segment lists. -/
theorem propagation_deterministic_idempotent (env : EngineEnv) (seed : LightRay)
    (old1 old2 : List RaySegment) :
    updateModel env seed old1 = updateModel env seed old2 ∧
      updateModel env seed (updateModel env seed old1) =
        updateModel env seed old1 :=
  ⟨rfl, rfl⟩

/-- Claim C4: for every engine environment and seed ray, the run terminates:
the work queue empties within the fixed fuel budget derived from the hard
maximum recursion depth, because each processed ray of depth d is replaced by
at most two children of depth d+1 and children beyond the depth bound or below
the power threshold are never enqueued. -/
theorem propagation_terminates (env : EngineEnv) (seed : LightRay) :
    ∃ segs, propagateAll env seed = some segs := by
  have h : queueMeasure env.maxDepth [(seed, 0)] ≤ initialFuel env := by
    simp [queueMeasure, entryWeight, initialFuel]
  exact Option.isSome_iff_exists.mp (propagateLoop_isSome env (initialFuel env) [(seed, 0)] h)

/-- Claim C5: a simulation step appends wave samples only when the sensor's
visible flag is set — the step is the identity otherwise — and dropping the
sensor back into the toolbox resets the recorded series of both probes and
turns the visible flag off. -/
theorem wave_samples_visibility_and_reset (samp1 samp2 : WaveSample) (dt : ℚ)
    (s : WaveSensor) :
    (s.visible = false → moreToolsStepInternal samp1 samp2 dt s = s) ∧
      (s.visible = true →
        (moreToolsStepInternal samp1 samp2 dt s).series1 = s.series1 ++ [samp1] ∧
          (moreToolsStepInternal samp1 samp2 dt s).series2 = s.series2 ++ [samp2]) ∧
      (dropIntoToolbox s).series1 = [] ∧
      (dropIntoToolbox s).series2 = [] ∧
      (dropIntoToolbox s).visible = false := by
  refine ⟨?_, ?_, rfl, rfl, rfl⟩
  · intro h
    simp [moreToolsStepInternal, h]
  · intro h
    simp [moreToolsStepInternal, h, waveSensorStep]

/-- Witness for C5 at a concrete visible sensor state with recorded samples. -/
theorem wave_samples_visibility_and_reset_witness :
    (moreToolsStepInternal (1, 1) (1, 2) 1 witnessWaveSensor).series1 =
        witnessWaveSensor.series1 ++ [(1, 1)] ∧
      (moreToolsStepInternal (1, 1) (1, 2) 1 witnessWaveSensor).series2 =
        witnessWaveSensor.series2 ++ [(1, 2)] ∧
      (dropIntoToolbox witnessWaveSensor).series1 = [] ∧
      (dropIntoToolbox witnessWaveSensor).series2 = [] ∧
      (dropIntoToolbox witnessWaveSensor).visible = false := by
  obtain ⟨h1, h2, h3, h4, h5⟩ :=
    wave_samples_visibility_and_reset (1, 1) (1, 2) 1 witnessWaveSensor
  exact ⟨(h2 rfl).1, (h2 rfl).2, h3, h4, h5⟩

lemma pushSample_length_le (N : ℕ) (s : WaveSample) (buf : List WaveSample) :
    (pushSample N s buf).length ≤ N := by
  unfold pushSample
  rw [List.length_take]
  exact min_le_left _ _

/-- Claim C6: the wave sample sliding window never holds more than its fixed
capacity N — after one push and after recording any stream of samples — and
when pushing into a buffer the new sample is kept together with the N−1 most
recent previous samples, so the oldest samples are the ones evicted (FIFO
arrival order; the buffer is stored most-recent-first). -/
theorem wave_sample_buffer_bounded_fifo (N : ℕ) (hN : 1 ≤ N) (s : WaveSample)
    (buf : List WaveSample) :
    (pushSample N s buf).length ≤ N ∧
      (∀ stream init, init.length ≤ N →
        (recordSamples N stream init).length ≤ N) ∧
      pushSample N s buf = s :: buf.take (N - 1) := by
  refine ⟨pushSample_length_le N s buf, ?_, ?_⟩
  · intro stream
    induction stream with
    | nil =>
        intro init h
        simpa [recordSamples] using h
    | cons a rest ih =>
        intro init h
        have hstep : recordSamples N (a :: rest) init =
            recordSamples N rest (pushSample N a init) := rfl
        rw [hstep]
        exact ih _ (pushSample_length_le N a init)
  · obtain ⟨m, rfl⟩ : ∃ m, N = m + 1 := ⟨N - 1, by omega⟩
    simp [pushSample]

/-- Witness for C6 at capacity 2 with a full buffer: the push keeps the new
sample and the most recent old one, evicting the oldest. -/
theorem wave_sample_buffer_bounded_fifo_witness :
    (pushSample 2 (0, 0) [(1, 1), (2, 2)]).length ≤ 2 ∧
      pushSample 2 (0, 0) [(1, 1), (2, 2)] = (0, 0) :: [(1, 1)] := by
  obtain ⟨h1, h2, h3⟩ :=
    wave_sample_buffer_bounded_fifo 2 (by norm_num) (0, 0) [(1, 1), (2, 2)]
  exact ⟨h1, by simpa using h3⟩

/-- Claim C7: the white-light display is recomputed by the step loop only when
the color mode is white and the dirty flag is set; the flag is cleared by the
recomputation, and a second step right after the first never recomputes
(stepping is idempotent until an input change sets the flag again). -/
theorem white_light_dirty_recompute (s : PrismBreakState) :
    ((prismBreakStepInternal s).whiteLightSteps ≠ s.whiteLightSteps →
        s.colorMode = ColorMode.white ∧ s.dirty = true ∧
          (prismBreakStepInternal s).dirty = false) ∧
      prismBreakStepInternal (prismBreakStepInternal s) =
        prismBreakStepInternal s := by
  constructor
  · intro hne
    by_cases h : s.colorMode = ColorMode.white ∧ s.dirty = true
    · exact ⟨h.1, h.2, by simp [prismBreakStepInternal, h]⟩
    · exfalso
      apply hne
      simp [prismBreakStepInternal, h]
  · by_cases h : s.colorMode = ColorMode.white ∧ s.dirty = true
    · simp [prismBreakStepInternal, h]
    · simp [prismBreakStepInternal, h]

/-- Witness for C7 at a concrete white-mode dirty state, in which the step does
recompute. -/
theorem white_light_dirty_recompute_witness :
    witnessPrismBreakState.colorMode = ColorMode.white ∧
      witnessPrismBreakState.dirty = true ∧
      (prismBreakStepInternal witnessPrismBreakState).dirty = false :=
  (white_light_dirty_recompute witnessPrismBreakState).1 (by decide)

/-- Claim C8: calling setWaveSensorNodeScale with the end position equal to
probe1's current position and the scale equal to the current node scale leaves
the body position and both probe positions unchanged: the reposition formula is
the identity when scale = prevScale and the final translation is by the zero
vector. -/
theorem setWaveSensorNodeScale_identity (s : WaveSensorLayout)
    (h : s.nodeScale ≠ 0) :
    (setWaveSensorNodeScale s.probe1Position.1 s.probe1Position.2 s.nodeScale
        s).bodyPosition = s.bodyPosition ∧
      (setWaveSensorNodeScale s.probe1Position.1 s.probe1Position.2 s.nodeScale
        s).probe1Position = s.probe1Position ∧
      (setWaveSensorNodeScale s.probe1Position.1 s.probe1Position.2 s.nodeScale
        s).probe2Position = s.probe2Position := by
  have hr : s.nodeScale / s.nodeScale = 1 := div_self h
  simp [setWaveSensorNodeScale, translateAllXY, hr]

/-- Witness for C8 at a concrete layout with node scale 1. -/
theorem setWaveSensorNodeScale_identity_witness :
    (setWaveSensorNodeScale witnessLayout.probe1Position.1
        witnessLayout.probe1Position.2 witnessLayout.nodeScale
        witnessLayout).bodyPosition = witnessLayout.bodyPosition ∧
      (setWaveSensorNodeScale witnessLayout.probe1Position.1
        witnessLayout.probe1Position.2 witnessLayout.nodeScale
        witnessLayout).probe1Position = witnessLayout.probe1Position ∧
      (setWaveSensorNodeScale witnessLayout.probe1Position.1
        witnessLayout.probe1Position.2 witnessLayout.nodeScale
        witnessLayout).probe2Position = witnessLayout.probe2Position :=
  setWaveSensorNodeScale_identity witnessLayout (by decide)

/-- Claim C9: the two versions of ExpandableProtractorNode.setExpanded, in the
more-tools and moretools directories, are extensionally equal: for every
boolean input both apply protractor scale 0.8 when expanded and 0.4
otherwise. -/
theorem setExpanded_versions_equal (expanded : Bool) :
    moreToolsSetExpandedScale expanded = moretoolsDirSetExpandedScale expanded :=
  rfl

/-- Claim C10: after a rotation-drag update, either the laser's emission point
lies inside the drag bounds, or the laser's angle equals its value from before
the update; and in wave mode with the top-left-quadrant flag set, the applied
angle never exceeds MAX_ANGLE_IN_WAVE_MODE. -/
theorem rotation_drag_bounds_or_restore (env : RotationDragEnv)
    (angleBefore pointerAngle : ℚ) :
    (env.inDragBounds
        (env.emissionPointAt (rotationDrag env angleBefore pointerAngle)) = true ∨
        rotationDrag env angleBefore pointerAngle = angleBefore) ∧
      (env.waveMode = true → env.topLeftQuadrant = true →
        appliedRotationAngle env pointerAngle ≤ env.maxAngleInWaveMode) := by
  constructor
  · by_cases hb : env.inDragBounds
        (env.emissionPointAt (appliedRotationAngle env pointerAngle)) = true
    · left
      rw [rotationDrag, if_pos hb]
      exact hb
    · right
      rw [rotationDrag, if_neg hb]
  · intro hw ht
    by_cases hp : env.maxAngleInWaveMode < env.clampDragAngle pointerAngle
    · rw [appliedRotationAngle]
      simp [hw, ht, hp]
    · rw [appliedRotationAngle]
      simp [hw, ht, hp]
      exact le_of_not_lt hp

/-- Witness for C10 at the concrete wave-mode context, where the pointer angle
3 is clamped to the maximum angle 1. -/
theorem rotation_drag_bounds_or_restore_witness :
    appliedRotationAngle witnessRotationEnv 3 ≤
      witnessRotationEnv.maxAngleInWaveMode :=
  (rotation_drag_bounds_or_restore witnessRotationEnv 0 3).2 rfl rfl

end BendingLight
